import Mathlib

/-!
Shallow embedding of `utilities.py`: download-or-load caching of CSV,
gzip-CSV and OPeNDAP/netCDF artifacts, ERA5 URL derivation, and monthly
aggregation of daily pressure-level files.

Modelling conventions:
* Bytes on disk or on the wire are `List Char`.
* The cache directory is an association list from filename to entry; an
  entry is either raw bytes (a CSV file) or a serialized dataset (a
  netCDF file).  Lookup finds the most recent write, matching
  filesystem overwrite semantics.
* The network is a deterministic map from URL to an optional response:
  `none` models an HTTP error status (`raise_for_status`) for CSV GETs,
  and a failed remote open for OPeNDAP datasets.
* Each entry point returns a `FetchOut`: the result (`Except Err _`,
  errors modelling Python exceptions), the cache after the call, and the
  number of network requests the call performed.
* A gridded dataset is represented by its labelled coordinate axes
  (latitude, longitude, time in absolute hours, optional pressure
  levels) together with its variable names; `pandas`/`xarray` parsing
  and serialization round-trip bytes exactly.
* Reading a cached netCDF entry as CSV, or a cached CSV entry as
  netCDF, is modelled as the corresponding parse/open failure.
-/

abbrev Bytes := List Char

/-- Result of parsing a CSV byte stream: rows of comma-separated fields. -/
abbrev DataFrame := List (List String)

/-- Exceptions raised by the module (Python exception taxonomy). -/
inductive Err where
  /-- `requests.HTTPError` from `raise_for_status` (non-2xx status). -/
  | httpError (url : String)
  /-- `gzip.BadGzipFile`: the downloaded payload is not valid gzip. -/
  | gzipError (url : String)
  /-- `pandas.errors.EmptyDataError` / parse failure on CSV bytes. -/
  | parseError
  /-- `xarray` failure opening a remote or cached dataset. -/
  | openError (url : String)
  /-- `calendar.IllegalMonthError`: month outside 1..12. -/
  | illegalMonth (m : Nat)
  /-- `KeyError`: the requested variable is absent from the dataset. -/
  | keyError (v : String)
  /-- Failure of nearest-level selection (no levels to select from). -/
  | selError
  /-- The `ValueError` raised when a month produced no daily data. -/
  | noData (file_code : String) (year month : Nat)
deriving DecidableEq, Repr

/-- A gridded dataset: coordinate axes and variable names.
`levels = none` models a dataset without a `level` dimension.
Times are absolute hours since an epoch, so hour-of-day is `t % 24`. -/
structure Dataset where
  vars : List String
  levels : Option (List Int)
  lats : List Int
  lons : List Int
  times : List Nat
deriving DecidableEq, Repr

/-- A single-variable array after variable (and level) selection. -/
structure DataArray where
  lats : List Int
  lons : List Int
  times : List Nat
deriving DecidableEq, Repr

/-- One file in the cache directory. -/
inductive Entry where
  | bytes (b : Bytes)
  | nc (d : Dataset)
deriving DecidableEq, Repr

/-- The cache directory: filename-keyed store, most recent write first. -/
abbrev Cache := List (String × Entry)

def Cache.lookup : Cache → String → Option Entry
  | [], _ => none
  | (k, v) :: rest, key => if k = key then some v else Cache.lookup rest key

def Cache.insert (c : Cache) (k : String) (v : Entry) : Cache :=
  (k, v) :: c

/-- The external world: deterministic responses per URL. -/
structure Net where
  http : String → Option Bytes
  grids : String → Option Dataset

deriving instance DecidableEq for Except

/-- Outcome of one entry-point call: result, cache after the call, and
number of network requests performed by the call. -/
structure FetchOut (α : Type) where
  res : Except Err α
  cache : Cache
  reqs : Nat
deriving DecidableEq

/-! ### String helpers: `url.split('/')[-1]` and `.replace('.gz', '')` -/

/-- `s.split('/')`: split a character list at every `'/'`. -/
def splitSlash : List Char → List (List Char)
  | [] => [[]]
  | c :: rest =>
    let r := splitSlash rest
    if c = '/' then [] :: r
    else (c :: r.headD []) :: r.tail

/-- `url.split('/')[-1]`: the last path segment of a URL. -/
def lastSegment (url : String) : String :=
  ⟨(splitSlash url.data).getLastD []⟩

/-- Python `str.replace('.gz', '')`: delete every leftmost,
non-overlapping occurrence of `".gz"`. -/
def replaceGz : List Char → List Char
  | '.' :: 'g' :: 'z' :: rest => replaceGz rest
  | c :: rest => c :: replaceGz rest
  | [] => []

/-- Cache filename derived by `open_or_download_gz` when no override is
given: last URL segment with `'.gz'` occurrences removed. -/
def gzDefaultName (url : String) : String :=
  ⟨replaceGz (lastSegment url).data⟩

/-! ### CSV parsing (`pd.read_csv` model) -/

/-- Split a character list at every separator character. -/
def splitOnChar (sep : Char) : List Char → List (List Char)
  | [] => [[]]
  | c :: rest =>
    let r := splitOnChar sep rest
    if c = sep then [] :: r
    else (c :: r.headD []) :: r.tail

/-- `pd.read_csv` model: fails on empty content
(`pandas.errors.EmptyDataError`), otherwise splits lines and fields. -/
def read_csv (b : Bytes) : Except Err DataFrame :=
  if b = [] then .error .parseError
  else .ok ((splitOnChar '\n' b).map (fun line =>
    (splitOnChar ',' line).map (fun f => (⟨f⟩ : String))))

/-! ### `open_or_download` -/

/-- `open_or_download(url, local_name)`: serve the cached CSV when the
filename exists in the cache, otherwise GET the URL, check the status,
write the raw bytes, and parse. -/
def open_or_download (net : Net) (cache : Cache) (url : String)
    (local_name : Option String) : FetchOut DataFrame :=
  let filename := local_name.getD (lastSegment url)
  match cache.lookup filename with
  | some (.bytes b) => ⟨read_csv b, cache, 0⟩
  | some (.nc _) => ⟨.error .parseError, cache, 0⟩
  | none =>
    match net.http url with
    | none => ⟨.error (.httpError url), cache, 1⟩
    | some b => ⟨read_csv b, cache.insert filename (.bytes b), 1⟩

/-! ### `open_or_download_gz` -/

/-- `open_or_download_gz(url, local_name)`: like `open_or_download`, but
the derived default filename removes `'.gz'` and, on a miss only, the
downloaded payload is gunzipped before being written and parsed.
`gunzip` models `gzip.decompress`; `none` is a `BadGzipFile` failure. -/
def open_or_download_gz (gunzip : Bytes → Option Bytes) (net : Net)
    (cache : Cache) (url : String) (local_name : Option String) :
    FetchOut DataFrame :=
  let filename := local_name.getD (gzDefaultName url)
  match cache.lookup filename with
  | some (.bytes b) => ⟨read_csv b, cache, 0⟩
  | some (.nc _) => ⟨.error .parseError, cache, 0⟩
  | none =>
    match net.http url with
    | none => ⟨.error (.httpError url), cache, 1⟩
    | some p =>
      match gunzip p with
      | none => ⟨.error (.gzipError url), cache, 1⟩
      | some b => ⟨read_csv b, cache.insert filename (.bytes b), 1⟩

/-! ### `get_era5_url` -/

/-- Gregorian leap-year rule (`calendar.isleap`). -/
def isleap (y : Nat) : Bool :=
  y % 4 = 0 && (y % 100 != 0 || y % 400 = 0)

/-- Days in a month of a year (`calendar.monthrange(year, month)[1]`),
assuming the month is in 1..12. -/
def monthDays (y m : Nat) : Nat :=
  if m = 2 then (if isleap y then 29 else 28)
  else if m = 4 ∨ m = 6 ∨ m = 9 ∨ m = 11 then 30
  else 31

/-- `calendar.monthrange(year, month)[1]` with the library's validation:
raises `IllegalMonthError` for a month outside 1..12. -/
def monthrange (year month : Nat) : Except Err Nat :=
  if 1 ≤ month ∧ month ≤ 12 then .ok (monthDays year month)
  else .error (.illegalMonth month)

/-- Python `f"{n:02d}"` for a natural number. -/
def pad2 (n : Nat) : String :=
  if n < 10 then "0" ++ toString n else toString n

/-- `f"{year}{month:02d}"`. -/
def yyyymmStr (year month : Nat) : String :=
  toString year ++ pad2 month

/-- `get_era5_url(base_url, year, month, file_code)`: monthly ERA5
surface OPeNDAP URL.  `monthrange` raises on an out-of-range month. -/
def get_era5_url (base_url : String) (year month : Nat)
    (file_code : String) : Except Err String :=
  let yyyymm := yyyymmStr year month
  match monthrange year month with
  | .error e => .error e
  | .ok last_day =>
    let filename :=
      "e5.oper.an.sfc." ++ file_code ++ ".ll025sc." ++
        yyyymm ++ "0100_" ++ yyyymm ++ pad2 last_day ++ "23.nc"
    .ok (base_url ++ "/" ++ yyyymm ++ "/" ++ filename)

/-! ### `open_or_download_era5` -/

/-- xarray label slice on a monotonically descending latitude axis:
`sel(latitude=slice(hi, lo))` drops the leading labels above `hi`, then
keeps labels while they stay at or above `lo`. -/
def latSliceDesc (lats : List Int) (hi lo : Int) : List Int :=
  (lats.dropWhile (fun v => hi < v)).takeWhile (fun v => lo ≤ v)

/-- xarray label slice on a monotonically ascending longitude axis:
`sel(longitude=slice(lo, hi))`. -/
def lonSliceAsc (lons : List Int) (lo hi : Int) : List Int :=
  (lons.dropWhile (fun v => v < lo)).takeWhile (fun v => v ≤ hi)

/-- The subsetting pipeline applied on a cache miss: latitude slice with
`(lat_max, lat_min)` ordering (ERA5 latitude is descending), longitude
slice `(lon_min, lon_max)`, then the `time.dt.hour == hour` mask. -/
def subset_era5 (ds : Dataset) (lat_min lat_max lon_min lon_max : Int)
    (hour : Nat) : Dataset :=
  { ds with
      lats := latSliceDesc ds.lats lat_max lat_min
      lons := lonSliceAsc ds.lons lon_min lon_max
      times := ds.times.filter (fun t => t % 24 = hour) }

/-- `open_or_download_era5(url, lat_min, lat_max, lon_min, lon_max,
hour)`: on a hit, open and return the cached dataset unmodified; on a
miss, open the remote dataset, subset it, write it to the cache, and
return it. -/
def open_or_download_era5 (net : Net) (cache : Cache) (url : String)
    (lat_min lat_max lon_min lon_max : Int) (hour : Nat) :
    FetchOut Dataset :=
  let filename := lastSegment url
  match cache.lookup filename with
  | some (.nc d) => ⟨.ok d, cache, 0⟩
  | some (.bytes _) => ⟨.error (.openError filename), cache, 0⟩
  | none =>
    match net.grids url with
    | none => ⟨.error (.openError url), cache, 1⟩
    | some ds =>
      let sub := subset_era5 ds lat_min lat_max lon_min lon_max hour
      ⟨.ok sub, cache.insert filename (.nc sub), 1⟩

/-! ### `open_or_download_era5_pl_monthly` -/

/-- Daily pressure-level URL built inside the aggregation loop:
`f"{base_url}/{yyyymm}/e5.oper.an.pl.{file_code}.{grid_code}.{yyyymmdd}00_{yyyymmdd}23.nc"`. -/
def era5_pl_url (base_url : String) (year month day : Nat)
    (file_code grid_code : String) : String :=
  let yyyymm := yyyymmStr year month
  let yyyymmdd := yyyymm ++ pad2 day
  let filename :=
    "e5.oper.an.pl." ++ file_code ++ "." ++ grid_code ++ "." ++
      yyyymmdd ++ "00_" ++ yyyymmdd ++ "23.nc"
  base_url ++ "/" ++ yyyymm ++ "/" ++ filename

/-- `sel(level=level, method='nearest')` on the level axis: the nearest
available level, or `none` when there is nothing to select from. -/
def nearestLevel (lvl : Int) : List Int → Option Int
  | [] => none
  | x :: xs =>
    some (xs.foldl (fun b a => if (a - lvl).natAbs < (b - lvl).natAbs then a else b) x)

/-- `ds[nc_var]` followed by nearest-level selection when the dataset
has a `level` dimension (`'level' in ds.dims`). -/
def selectVar (ds : Dataset) (nc_var : String) (level : Int) :
    Except Err DataArray :=
  if nc_var ∈ ds.vars then
    match ds.levels with
    | some ls =>
      match nearestLevel level ls with
      | some _ => .ok ⟨ds.lats, ds.lons, ds.times⟩
      | none => .error .selError
    | none => .ok ⟨ds.lats, ds.lons, ds.times⟩
  else .error (.keyError nc_var)

/-- `xr.concat(daily_data, dim='time')`: concatenate along time. -/
def concat_time : List DataArray → DataArray
  | [] => ⟨[], [], []⟩
  | d :: rest => ⟨d.lats, d.lons, (d :: rest).map (·.times) |>.flatten⟩

/-- The daily loop of `open_or_download_era5_pl_monthly`: fetch each
day's file in order, select the variable (and nearest level), and
accumulate the slices; any exception aborts the loop immediately. -/
def monthly_loop (net : Net) (base_url : String) (year month : Nat)
    (file_code nc_var : String) (level : Int) (grid_code : String)
    (lat_min lat_max lon_min lon_max : Int) (hour : Nat) :
    List Nat → Cache → Nat → List DataArray →
    Except Err (List DataArray) × Cache × Nat
  | [], cache, reqs, acc => (.ok acc.reverse, cache, reqs)
  | day :: days, cache, reqs, acc =>
    let url := era5_pl_url base_url year month day file_code grid_code
    let out := open_or_download_era5 net cache url lat_min lat_max lon_min lon_max hour
    match out.res with
    | .error e => (.error e, out.cache, reqs + out.reqs)
    | .ok ds =>
      match selectVar ds nc_var level with
      | .error e => (.error e, out.cache, reqs + out.reqs)
      | .ok da =>
        monthly_loop net base_url year month file_code nc_var level grid_code
          lat_min lat_max lon_min lon_max hour days out.cache (reqs + out.reqs)
          (da :: acc)

/-- `open_or_download_era5_pl_monthly(...)`: aggregate a month of daily
pressure-level files; after the loop, raise `ValueError` when no daily
data was collected, otherwise concatenate along time. -/
def open_or_download_era5_pl_monthly (net : Net) (cache : Cache)
    (base_url : String) (year month : Nat) (file_code nc_var : String)
    (level : Int) (grid_code : String)
    (lat_min lat_max lon_min lon_max : Int) (hour : Nat) :
    FetchOut DataArray :=
  match monthrange year month with
  | .error e => ⟨.error e, cache, 0⟩
  | .ok last_day =>
    match monthly_loop net base_url year month file_code nc_var level grid_code
        lat_min lat_max lon_min lon_max hour
        (List.range' 1 last_day) cache 0 [] with
    | (.error e, c, r) => ⟨.error e, c, r⟩
    | (.ok daily_data, c, r) =>
      if daily_data.isEmpty then
        ⟨.error (.noData file_code year month), c, r⟩
      else ⟨.ok (concat_time daily_data), c, r⟩

/-! ### Spec-side definitions and helpers -/

/-- Does a character list begin with the three characters `".gz"`? -/
def startsWithGz (l : List Char) : Bool :=
  match l with
  | c1 :: c2 :: c3 :: _ => c1 = '.' && c2 = 'g' && c3 = 'z'
  | _ => false

/-- Does `".gz"` occur anywhere in a character list? -/
def containsGz : List Char → Bool
  | [] => false
  | c :: xs => startsWithGz (c :: xs) || containsGz xs

/-- The gz filename derivation as the specification words it: strip only
a single trailing `".gz"` suffix, leaving interior occurrences
untouched. -/
def stripTrailingGz (s : String) : String :=
  if s.data.reverse.take 3 = ['z', 'g', '.'] then
    ⟨s.data.take (s.data.length - 3)⟩
  else s

/-- The monthly surface URL as the specification words it:
`<base_url>/<YYYYMM>/e5.oper.an.sfc.<file_code>.ll025sc.<YYYYMM>0100_<YYYYMM><lastday>23.nc`
with `lastday` the last calendar day of the month. -/
def spec_surface_url (base_url : String) (year month : Nat)
    (file_code : String) : String :=
  base_url ++ "/" ++ yyyymmStr year month ++ "/" ++
    ("e5.oper.an.sfc." ++ file_code ++ ".ll025sc." ++
      yyyymmStr year month ++ "0100_" ++ yyyymmStr year month ++
      pad2 (monthDays year month) ++ "23.nc")

/-- Is an exception the no-daily-data `ValueError`? -/
def Err.isNoData : Err → Bool
  | .noData _ _ _ => true
  | _ => false

/-- Is a monthly-aggregation result the no-daily-data `ValueError`? -/
def resIsNoData : Except Err DataArray → Bool
  | .error e => e.isNoData
  | .ok _ => false


/-! ### Concrete fixtures for witnesses and counterexamples -/

/-- A remote dataset whose latitude axis misses the bounds used below. -/
def c4ds : Dataset := ⟨["CAPE"], none, [40, 39], [255], [18]⟩

/-- A network serving only `c4ds`. -/
def c4net : Net :=
  ⟨fun _ => none, fun u => if u = "https://h/empty.nc" then some c4ds else none⟩

/-- The empty-latitude subset produced from `c4ds`. -/
def c4sub : Dataset := ⟨["CAPE"], none, [], [255], [18]⟩


/-- A network on which every request fails. -/
def noNet : Net := ⟨fun _ => none, fun _ => none⟩

/-- A network serving one CSV file and one gridded dataset. -/
def c1net : Net :=
  ⟨fun u => if u = "https://h/a.csv" then some "x,y\n1,2".data else none,
   fun u => if u = "https://h/d.nc" then some c4ds else none⟩

/-- A remote dataset with descending latitudes and ascending
longitudes. -/
def c7ds : Dataset := ⟨["T"], none, [40, 39, 38, 37], [255, 256], [18, 30, 42]⟩

/-- A network serving only `c7ds`. -/
def c7net : Net :=
  ⟨fun _ => none, fun u => if u = "https://h/sub.nc" then some c7ds else none⟩

/-- A gzip decoder defined on a single concrete payload. -/
def c9gunzip : Bytes → Option Bytes :=
  fun b => if b = "GZPAYLOAD".data then some "x,y\n1,2".data else none

/-- A network serving the gzip payload understood by `c9gunzip`. -/
def c9net : Net :=
  ⟨fun u => if u = "https://h/t.csv.gz" then some "GZPAYLOAD".data else none,
   fun _ => none⟩

theorem replaceGz_cons (c : Char) (xs : List Char)
    (h : startsWithGz (c :: xs) = false) :
    replaceGz (c :: xs) = c :: replaceGz xs := by
  rw [replaceGz.eq_def]
  split
  · rename_i heq
    rw [heq] at h
    simp [startsWithGz] at h
  · rename_i heq
    cases heq
    rfl
  · rename_i heq
    cases heq

theorem startsWithGz_append_gz (c : Char) (s t : List Char)
    (h : startsWithGz (c :: s) = false) :
    startsWithGz ((c :: s) ++ '.' :: 'g' :: 'z' :: t) = false := by
  match s with
  | [] => simp [startsWithGz]
  | [c2] => simp [startsWithGz]
  | c2 :: c3 :: s3 => simpa [startsWithGz] using h

/-- Deleting leftmost non-overlapping `".gz"` occurrences eats an
occurrence placed right after a `".gz"`-free block. -/
theorem replaceGz_append (s : List Char) (hs : containsGz s = false)
    (t : List Char) :
    replaceGz (s ++ '.' :: 'g' :: 'z' :: t) = s ++ replaceGz t := by
  induction s with
  | nil => rfl
  | cons c s ih =>
    simp only [containsGz, Bool.or_eq_false_iff] at hs
    have hsw : startsWithGz (c :: (s ++ '.' :: 'g' :: 'z' :: t)) = false :=
      startsWithGz_append_gz c s t hs.1
    calc replaceGz ((c :: s) ++ '.' :: 'g' :: 'z' :: t)
        = replaceGz (c :: (s ++ '.' :: 'g' :: 'z' :: t)) := by
          rw [List.cons_append]
      _ = c :: replaceGz (s ++ '.' :: 'g' :: 'z' :: t) :=
          replaceGz_cons _ _ hsw
      _ = c :: (s ++ replaceGz t) := by rw [ih hs.2]
      _ = (c :: s) ++ replaceGz t := by rw [List.cons_append]

/-- On a list sorted by `R`, a predicate that propagates backwards along
`R` makes `takeWhile` agree with `filter`. -/
theorem takeWhile_eq_filter_of_pairwise {α : Type} {R : α → α → Prop}
    {p : α → Bool} (hmono : ∀ a b, R a b → p b = true → p a = true) :
    ∀ {l : List α}, l.Pairwise R → l.takeWhile p = l.filter p := by
  intro l hl
  induction l with
  | nil => rfl
  | cons c rest ih =>
    rcases List.pairwise_cons.mp hl with ⟨hc, hrest⟩
    by_cases hp : p c = true
    · rw [List.takeWhile_cons_of_pos hp, List.filter_cons_of_pos hp, ih hrest]
    · rw [List.takeWhile_cons_of_neg hp, List.filter_cons_of_neg hp]
      symm
      rw [List.filter_eq_nil_iff]
      intro a ha hpa
      exact hp (hmono c a (hc a ha) hpa)

/-- On a list sorted by `R`, dropping a prefix by a backwards-closed
predicate agrees with filtering by its negation. -/
theorem dropWhile_eq_filter_of_pairwise {α : Type} {R : α → α → Prop}
    {p : α → Bool} (hmono : ∀ a b, R a b → p b = true → p a = true) :
    ∀ {l : List α}, l.Pairwise R → l.dropWhile p = l.filter (fun a => !p a) := by
  intro l hl
  induction l with
  | nil => rfl
  | cons c rest ih =>
    rcases List.pairwise_cons.mp hl with ⟨hc, hrest⟩
    by_cases hp : p c = true
    · rw [List.dropWhile_cons_of_pos hp, List.filter_cons_of_neg (by simp [hp]), ih hrest]
    · rw [List.dropWhile_cons_of_neg hp,
        List.filter_cons_of_pos (by simp [Bool.eq_false_iff.mpr hp])]
      congr 1
      symm
      rw [List.filter_eq_self]
      intro a ha
      simp only [Bool.not_eq_true']
      by_contra hcon
      simp only [Bool.not_eq_false] at hcon
      exact hp (hmono c a (hc a ha) hcon)

/-- The xarray descending-latitude slice keeps exactly the labels inside
the requested bounds. -/
theorem latSliceDesc_eq_filter (lats : List Int) (hi lo : Int)
    (hs : lats.Pairwise (· ≥ ·)) :
    latSliceDesc lats hi lo =
      lats.filter (fun v => decide (lo ≤ v) && decide (v ≤ hi)) := by
  unfold latSliceDesc
  rw [dropWhile_eq_filter_of_pairwise (p := fun v => decide (hi < v))
    (fun a b hab hpb => by
      simp only [decide_eq_true_eq] at hpb ⊢; omega) hs]
  rw [takeWhile_eq_filter_of_pairwise (p := fun v => decide (lo ≤ v))
    (fun a b hab hpb => by
      simp only [decide_eq_true_eq] at hpb ⊢; omega)
    (hs.sublist (List.filter_sublist _))]
  rw [List.filter_filter]
  apply List.filter_congr
  intro a _
  congr 1
  rw [← decide_not]
  exact decide_eq_decide.mpr not_lt

/-- The xarray ascending-longitude slice keeps exactly the labels inside
the requested bounds. -/
theorem lonSliceAsc_eq_filter (lons : List Int) (lo hi : Int)
    (hs : lons.Pairwise (· ≤ ·)) :
    lonSliceAsc lons lo hi =
      lons.filter (fun v => decide (lo ≤ v) && decide (v ≤ hi)) := by
  unfold lonSliceAsc
  rw [dropWhile_eq_filter_of_pairwise (p := fun v => decide (v < lo))
    (fun a b hab hpb => by
      simp only [decide_eq_true_eq] at hpb ⊢; omega) hs]
  rw [takeWhile_eq_filter_of_pairwise (p := fun v => decide (v ≤ hi))
    (fun a b hab hpb => by
      simp only [decide_eq_true_eq] at hpb ⊢; omega)
    (hs.sublist (List.filter_sublist _))]
  rw [List.filter_filter]
  apply List.filter_congr
  intro a _
  rw [Bool.and_comm]
  congr 1
  rw [← decide_not]
  exact decide_eq_decide.mpr not_lt

/-- Claim C9: decompression on miss only — on a cache miss with gzip
payload P whose decompressed form is C, `open_or_download_gz` writes C
to the cache and returns exactly the parse of C; on a cache hit the
result is the parse of the cached bytes and is independent of the
decompressor, so no gunzip is applied again. -/
theorem c9_decompress_on_miss_only :
    (∀ (gunzip : Bytes → Option Bytes) (net : Net) (cache : Cache)
        (url : String) (name : Option String) (P C : Bytes),
      cache.lookup (name.getD (gzDefaultName url)) = none →
      net.http url = some P → gunzip P = some C →
      open_or_download_gz gunzip net cache url name =
        ⟨read_csv C, cache.insert (name.getD (gzDefaultName url)) (.bytes C), 1⟩) ∧
    (∀ (g1 g2 : Bytes → Option Bytes) (net : Net) (cache : Cache)
        (url : String) (name : Option String) (c : Bytes),
      cache.lookup (name.getD (gzDefaultName url)) = some (.bytes c) →
      open_or_download_gz g1 net cache url name = ⟨read_csv c, cache, 0⟩ ∧
      open_or_download_gz g2 net cache url name = ⟨read_csv c, cache, 0⟩) := by
  constructor
  · intro gz net cache url name P C hmiss hnet hgz
    simp [open_or_download_gz, hmiss, hnet, hgz]
  · intro g1 g2 net cache url name c hhit
    constructor <;> simp [open_or_download_gz, hhit]

/-- Claim C1: cache idempotence — for each fetch entry point
(`open_or_download`, `open_or_download_gz`, `open_or_download_era5`),
if a call returns an artifact then it performed at most one network
request, and an identical second call performs zero requests and
returns a structurally equal artifact with the cache unchanged. -/
theorem c1_cache_idempotent :
    (∀ (net : Net) (cache : Cache) (url : String) (name : Option String)
        (df : DataFrame),
      (open_or_download net cache url name).res = .ok df →
      (open_or_download net cache url name).reqs ≤ 1 ∧
      open_or_download net (open_or_download net cache url name).cache url name =
        ⟨.ok df, (open_or_download net cache url name).cache, 0⟩) ∧
    (∀ (gunzip : Bytes → Option Bytes) (net : Net) (cache : Cache)
        (url : String) (name : Option String) (df : DataFrame),
      (open_or_download_gz gunzip net cache url name).res = .ok df →
      (open_or_download_gz gunzip net cache url name).reqs ≤ 1 ∧
      open_or_download_gz gunzip net
          (open_or_download_gz gunzip net cache url name).cache url name =
        ⟨.ok df, (open_or_download_gz gunzip net cache url name).cache, 0⟩) ∧
    (∀ (net : Net) (cache : Cache) (url : String)
        (la lb lc ld : Int) (hr : Nat) (d : Dataset),
      (open_or_download_era5 net cache url la lb lc ld hr).res = .ok d →
      (open_or_download_era5 net cache url la lb lc ld hr).reqs ≤ 1 ∧
      open_or_download_era5 net
          (open_or_download_era5 net cache url la lb lc ld hr).cache url la lb lc ld hr =
        ⟨.ok d, (open_or_download_era5 net cache url la lb lc ld hr).cache, 0⟩) := by
  refine ⟨?_, ?_, ?_⟩
  · intro net cache url name df hok
    simp only [open_or_download] at hok ⊢
    cases hl : Cache.lookup cache (name.getD (lastSegment url)) with
    | none =>
      simp only [hl] at hok ⊢
      cases hn : net.http url with
      | none => simp [hn] at hok
      | some b =>
        simp only [hn] at hok ⊢
        refine ⟨by simp, ?_⟩
        simp [Cache.lookup, Cache.insert, hok]
    | some e =>
      cases e with
      | bytes b =>
        simp only [hl] at hok ⊢
        refine ⟨by simp, ?_⟩
        simp [hl, hok]
      | nc d => simp [hl] at hok
  · intro gz net cache url name df hok
    simp only [open_or_download_gz] at hok ⊢
    cases hl : Cache.lookup cache (name.getD (gzDefaultName url)) with
    | none =>
      simp only [hl] at hok ⊢
      cases hn : net.http url with
      | none => simp [hn] at hok
      | some p =>
        simp only [hn] at hok ⊢
        cases hg : gz p with
        | none => simp [hg] at hok
        | some b =>
          simp only [hg] at hok ⊢
          refine ⟨by simp, ?_⟩
          simp [Cache.lookup, Cache.insert, hok]
    | some e =>
      cases e with
      | bytes b =>
        simp only [hl] at hok ⊢
        refine ⟨by simp, ?_⟩
        simp [hl, hok]
      | nc d => simp [hl] at hok
  · intro net cache url la lb lc ld hr d hok
    simp only [open_or_download_era5] at hok ⊢
    cases hl : Cache.lookup cache (lastSegment url) with
    | none =>
      simp only [hl] at hok ⊢
      cases hn : net.grids url with
      | none => simp [hn] at hok
      | some ds =>
        simp only [hn] at hok ⊢
        refine ⟨by simp, ?_⟩
        simp [Cache.lookup, Cache.insert, hok]
    | some e =>
      cases e with
      | bytes b => simp [hl] at hok
      | nc d2 =>
        simp only [hl] at hok ⊢
        refine ⟨by simp, ?_⟩
        simp [hl, hok]

/-- Claim C7: on a cache miss `open_or_download_era5` applies the
latitude slice with `(lat_max, lat_min)` ordering, the longitude slice
`(lon_min, lon_max)`, and the hour filter, and (for monotone axes) the
returned subset holds exactly the grid points with latitude in
`[lat_min, lat_max]`, longitude in `[lon_min, lon_max]`, and time at
the requested hour-of-day. -/
theorem c7_miss_subset_exact (net : Net) (cache : Cache) (url : String)
    (ds : Dataset) (lat_min lat_max lon_min lon_max : Int) (hour : Nat)
    (hmiss : cache.lookup (lastSegment url) = none)
    (hnet : net.grids url = some ds)
    (hlat : ds.lats.Pairwise (· ≥ ·))
    (hlon : ds.lons.Pairwise (· ≤ ·)) :
    open_or_download_era5 net cache url lat_min lat_max lon_min lon_max hour =
      ⟨.ok (subset_era5 ds lat_min lat_max lon_min lon_max hour),
        cache.insert (lastSegment url)
          (.nc (subset_era5 ds lat_min lat_max lon_min lon_max hour)), 1⟩ ∧
    (subset_era5 ds lat_min lat_max lon_min lon_max hour).lats =
      ds.lats.filter (fun v => decide (lat_min ≤ v) && decide (v ≤ lat_max)) ∧
    (subset_era5 ds lat_min lat_max lon_min lon_max hour).lons =
      ds.lons.filter (fun v => decide (lon_min ≤ v) && decide (v ≤ lon_max)) ∧
    (subset_era5 ds lat_min lat_max lon_min lon_max hour).times =
      ds.times.filter (fun t => decide (t % 24 = hour)) := by
  refine ⟨?_, ?_, ?_, rfl⟩
  · simp [open_or_download_era5, hmiss, hnet]
  · exact latSliceDesc_eq_filter ds.lats lat_max lat_min hlat
  · exact lonSliceAsc_eq_filter ds.lons lon_min lon_max hlon


/-- Claim C4 counterexample: a cache-miss request whose latitude
bounds select zero elements does not fail with any error — it returns
an empty-latitude dataset and writes it to the cache. -/
theorem c4_counterexample :
    (open_or_download_era5 c4net [] "https://h/empty.nc" 10 12 255 255 18).res =
      .ok c4sub ∧
    c4sub.lats = [] ∧
    (open_or_download_era5 c4net [] "https://h/empty.nc" 10 12 255 255 18).cache.lookup
      "empty.nc" = some (.nc c4sub) := by
  refine ⟨by decide, by decide, by decide⟩

/-- Claim C4 amended: on a cache miss whose requested bounds or hour
filter select zero elements along some dimension,
`open_or_download_era5` raises no error: it returns the degenerate
subset and caches it. -/
theorem c4_empty_subset_returned_and_cached (net : Net) (cache : Cache)
    (url : String) (ds : Dataset) (lat_min lat_max lon_min lon_max : Int)
    (hour : Nat)
    (hmiss : cache.lookup (lastSegment url) = none)
    (hnet : net.grids url = some ds)
    (_hempty : (subset_era5 ds lat_min lat_max lon_min lon_max hour).lats = [] ∨
      (subset_era5 ds lat_min lat_max lon_min lon_max hour).lons = [] ∨
      (subset_era5 ds lat_min lat_max lon_min lon_max hour).times = []) :
    open_or_download_era5 net cache url lat_min lat_max lon_min lon_max hour =
      ⟨.ok (subset_era5 ds lat_min lat_max lon_min lon_max hour),
        cache.insert (lastSegment url)
          (.nc (subset_era5 ds lat_min lat_max lon_min lon_max hour)), 1⟩ := by
  simp [open_or_download_era5, hmiss, hnet]

/-- Claim C6: for every base URL, file code, and month in 1..12 of any
year, `get_era5_url` builds
`<base>/<YYYYMM>/e5.oper.an.sfc.<code>.ll025sc.<YYYYMM>0100_<YYYYMM><lastday>23.nc`
with `lastday` the last calendar day of the month; concretely May 2024
ends on day 31 and February 2024 (leap year) on day 29. -/
theorem c6_era5_surface_url (base_url file_code : String) (year month : Nat)
    (hm1 : 1 ≤ month) (hm2 : month ≤ 12) :
    get_era5_url base_url year month file_code =
      .ok (spec_surface_url base_url year month file_code) ∧
    monthDays 2024 5 = 31 ∧ monthDays 2024 2 = 29 ∧
    get_era5_url "https://example.com/base" 2024 5 "128_059_cape" =
      .ok "https://example.com/base/202405/e5.oper.an.sfc.128_059_cape.ll025sc.2024050100_2024053123.nc" ∧
    get_era5_url "https://example.com/base" 2024 2 "128_059_cape" =
      .ok "https://example.com/base/202402/e5.oper.an.sfc.128_059_cape.ll025sc.2024020100_2024022923.nc" := by
  refine ⟨?_, by decide, by decide, by decide, by decide⟩
  simp [get_era5_url, monthrange, spec_surface_url, hm1, hm2]

/-- Witness for C6: the hypotheses hold at month 5 and the URL shape
follows. -/
theorem c6_era5_surface_url_witness :
    (1 ≤ 5 ∧ 5 ≤ 12) ∧
    get_era5_url "b" 2024 5 "c" = .ok (spec_surface_url "b" 2024 5 "c") :=
  ⟨by decide, (c6_era5_surface_url "b" "c" 2024 5 (by decide) (by decide)).1⟩

/-- Claim C8: for every base URL, file code, and year,
`get_era5_url` fails with the illegal-month error for every month
outside 1..12 (month 13 included) and succeeds for every month in
1..12. -/
theorem c8_invalid_month (base_url file_code : String) (year : Nat) :
    (∀ m, (m < 1 ∨ 12 < m) →
      get_era5_url base_url year m file_code = .error (.illegalMonth m)) ∧
    (∀ m, 1 ≤ m → m ≤ 12 →
      ∃ u, get_era5_url base_url year m file_code = .ok u) := by
  constructor
  · intro m hm
    have hcond : ¬(1 ≤ m ∧ m ≤ 12) := by omega
    simp [get_era5_url, monthrange, hcond]
  · intro m h1 h2
    refine ⟨spec_surface_url base_url year m file_code, ?_⟩
    simp [get_era5_url, monthrange, spec_surface_url, h1, h2]

/-- Witness for C8: the out-of-range months 0 and 13 fail and the
in-range month 1 succeeds, at year 2024. -/
theorem c8_invalid_month_witness :
    (((0 : Nat) < 1 ∨ 12 < (0 : Nat)) ∧ ((13 : Nat) < 1 ∨ 12 < (13 : Nat))) ∧
    get_era5_url "b" 2024 0 "c" = .error (.illegalMonth 0) ∧
    get_era5_url "b" 2024 13 "c" = .error (.illegalMonth 13) ∧
    (∃ u, get_era5_url "b" 2024 1 "c" = .ok u) := by
  have h := c8_invalid_month "b" "c" 2024
  exact ⟨⟨by decide, by decide⟩, h.1 0 (by decide), h.1 13 (by decide),
    h.2 1 (by decide) (by decide)⟩

/-- Claim C3 counterexample: on `data.gz.csv.gz` the code derives
`data.csv` (every `.gz` removed), not `data.gz.csv` (trailing suffix
only) as the claim states. -/
theorem c3_counterexample :
    gzDefaultName "https://h/data.gz.csv.gz" = "data.csv" ∧
    stripTrailingGz (lastSegment "https://h/data.gz.csv.gz") = "data.gz.csv" ∧
    gzDefaultName "https://h/data.gz.csv.gz" ≠
      stripTrailingGz (lastSegment "https://h/data.gz.csv.gz") := by
  refine ⟨by decide, by decide, by decide⟩

/-- Claim C3 amended: with no filename override the derived cache name
deletes every leftmost non-overlapping `".gz"` occurrence from the last
URL segment — a trailing `".gz"` is stripped, but interior occurrences
are removed as well. -/
theorem c3_replace_all_gz (seg ext : List Char)
    (h1 : containsGz seg = false) (h2 : containsGz ext = false) :
    (∀ url : String, gzDefaultName url = ⟨replaceGz (lastSegment url).data⟩) ∧
    replaceGz (seg ++ ['.', 'g', 'z']) = seg ∧
    replaceGz (seg ++ '.' :: 'g' :: 'z' :: (ext ++ ['.', 'g', 'z'])) = seg ++ ext ∧
    gzDefaultName "https://h/data.gz.csv.gz" = "data.csv" := by
  refine ⟨fun _ => rfl, ?_, ?_, by decide⟩
  · have h := replaceGz_append seg h1 []
    rw [show replaceGz [] = [] from rfl, List.append_nil] at h
    exact h
  · rw [replaceGz_append seg h1, replaceGz_append ext h2]
    simp [replaceGz]

/-- Witness for the amended C3 at segment `data` and interior `.csv`. -/
theorem c3_replace_all_gz_witness :
    (containsGz "data".data = false ∧ containsGz ".csv".data = false) ∧
    replaceGz ("data".data ++ ['.', 'g', 'z']) = "data".data ∧
    replaceGz ("data".data ++ '.' :: 'g' :: 'z' :: (".csv".data ++ ['.', 'g', 'z'])) =
      "data".data ++ ".csv".data := by
  have h := c3_replace_all_gz "data".data ".csv".data (by decide) (by decide)
  exact ⟨⟨by decide, by decide⟩, h.2.1, h.2.2.1⟩

/-- Claim C5: a cache hit in `open_or_download_era5` returns the cached
dataset unmodified with no network request, regardless of the current
subsetting parameters; two URLs with the same last segment map to the
same cached artifact. -/
theorem c5_hit_ignores_request_params (net : Net) (cache : Cache)
    (url url2 : String) (d : Dataset)
    (a1 b1 c1 e1 : Int) (r1 : Nat) (a2 b2 c2 e2 : Int) (r2 : Nat)
    (hhit : cache.lookup (lastSegment url) = some (.nc d))
    (hsame : lastSegment url2 = lastSegment url) :
    open_or_download_era5 net cache url a1 b1 c1 e1 r1 = ⟨.ok d, cache, 0⟩ ∧
    open_or_download_era5 net cache url2 a2 b2 c2 e2 r2 = ⟨.ok d, cache, 0⟩ := by
  constructor <;> simp [open_or_download_era5, hsame, hhit]

/-- Witness for C5: one cached file served for two different URLs and
two different parameter sets. -/
theorem c5_hit_ignores_request_params_witness :
    (Cache.lookup [("d.nc", .nc c4ds)] (lastSegment "https://h/d.nc") =
      some (.nc c4ds) ∧
     lastSegment "https://g/d.nc" = lastSegment "https://h/d.nc") ∧
    open_or_download_era5 c4net [("d.nc", .nc c4ds)] "https://h/d.nc"
      0 90 0 360 18 = ⟨.ok c4ds, [("d.nc", .nc c4ds)], 0⟩ ∧
    open_or_download_era5 c4net [("d.nc", .nc c4ds)] "https://g/d.nc"
      50 60 10 20 6 = ⟨.ok c4ds, [("d.nc", .nc c4ds)], 0⟩ := by
  have h := c5_hit_ignores_request_params c4net [("d.nc", Entry.nc c4ds)]
    "https://h/d.nc" "https://g/d.nc" c4ds 0 90 0 360 18 50 60 10 20 6
    (by decide) (by decide)
  exact ⟨⟨by decide, by decide⟩, h.1, h.2⟩

theorem monthDays_ge_28 (y m : Nat) : 28 ≤ monthDays y m := by
  unfold monthDays
  split
  · split <;> omega
  · split <;> omega

theorem monthrange_error_shape (year month : Nat) (e : Err)
    (h : monthrange year month = .error e) : e = .illegalMonth month := by
  unfold monthrange at h
  split at h
  · cases h
  · cases h
    rfl

theorem monthrange_ok_shape (year month : Nat) (n : Nat)
    (h : monthrange year month = .ok n) : n = monthDays year month := by
  unfold monthrange at h
  split at h
  · cases h
    rfl
  · cases h

theorem era5_fetch_error_shape (net : Net) (cache : Cache) (url : String)
    (a b c d : Int) (hr : Nat) (e : Err)
    (h : (open_or_download_era5 net cache url a b c d hr).res = .error e) :
    e = .openError (lastSegment url) ∨ e = .openError url := by
  simp only [open_or_download_era5] at h
  cases hl : Cache.lookup cache (lastSegment url) with
  | none =>
    simp only [hl] at h
    cases hn : net.grids url with
    | none =>
      simp only [hn] at h
      cases h
      right
      rfl
    | some ds => simp [hn] at h
  | some entry =>
    cases entry with
    | bytes bb =>
      simp only [hl] at h
      cases h
      left
      rfl
    | nc d2 => simp [hl] at h

theorem selectVar_error_shape (ds : Dataset) (v : String) (lvl : Int) (e : Err)
    (h : selectVar ds v lvl = .error e) :
    e = .keyError v ∨ e = .selError := by
  unfold selectVar at h
  split at h
  · cases hls : ds.levels with
    | none =>
      simp only [hls] at h
      cases h
    | some ls =>
      simp only [hls] at h
      cases hnl : nearestLevel lvl ls with
      | none =>
        simp only [hnl] at h
        cases h
        right
        rfl
      | some l0 =>
        simp only [hnl] at h
        cases h
  · cases h
    left
    rfl

theorem monthly_loop_spec (net : Net) (base_url : String) (year month : Nat)
    (file_code nc_var : String) (level : Int) (grid_code : String)
    (lat_min lat_max lon_min lon_max : Int) (hour : Nat) :
    ∀ (days : List Nat) (cache : Cache) (reqs : Nat) (acc : List DataArray),
      (∀ e c r, monthly_loop net base_url year month file_code nc_var level
          grid_code lat_min lat_max lon_min lon_max hour days cache reqs acc =
          (.error e, c, r) → e.isNoData = false) ∧
      (∀ l c r, monthly_loop net base_url year month file_code nc_var level
          grid_code lat_min lat_max lon_min lon_max hour days cache reqs acc =
          (.ok l, c, r) → l.length = days.length + acc.length) := by
  intro days
  induction days with
  | nil =>
    intro cache reqs acc
    constructor
    · intro e c r h
      simp [monthly_loop] at h
    · intro l c r h
      simp only [monthly_loop, Prod.mk.injEq, Except.ok.injEq] at h
      obtain ⟨h1, h2, h3⟩ := h
      rw [← h1]
      simp
  | cons day rest ih =>
    intro cache reqs acc
    constructor
    · intro e c r h
      simp only [monthly_loop] at h
      cases hres : (open_or_download_era5 net cache
          (era5_pl_url base_url year month day file_code grid_code)
          lat_min lat_max lon_min lon_max hour).res with
      | error e2 =>
        simp only [hres] at h
        simp only [Prod.mk.injEq] at h
        obtain ⟨he, _, _⟩ := h
        cases he
        rcases era5_fetch_error_shape _ _ _ _ _ _ _ _ _ hres with h2 | h2 <;>
          (cases h2; rfl)
      | ok ds =>
        simp only [hres] at h
        cases hsel : selectVar ds nc_var level with
        | error e2 =>
          simp only [hsel] at h
          simp only [Prod.mk.injEq] at h
          obtain ⟨he, _, _⟩ := h
          cases he
          rcases selectVar_error_shape _ _ _ _ hsel with h2 | h2 <;>
            (cases h2; rfl)
        | ok da =>
          simp only [hsel] at h
          exact (ih _ _ _).1 e c r h
    · intro l c r h
      simp only [monthly_loop] at h
      cases hres : (open_or_download_era5 net cache
          (era5_pl_url base_url year month day file_code grid_code)
          lat_min lat_max lon_min lon_max hour).res with
      | error e2 =>
        simp only [hres] at h
        simp at h
      | ok ds =>
        simp only [hres] at h
        cases hsel : selectVar ds nc_var level with
        | error e2 =>
          simp only [hsel] at h
          simp at h
        | ok da =>
          simp only [hsel] at h
          have := (ih _ _ _).2 l c r h
          simp at this
          simp [this]
          omega

/-- Claim C10: the no-data branch of
`open_or_download_era5_pl_monthly` is unreachable — the call never
yields the no-daily-data `ValueError` for any inputs, because the last
day of every month is at least 28 so the loop runs at least once, and
each iteration either propagates an error out of the whole call or
appends a slice. -/
theorem c10_noData_branch_unreachable (net : Net) (cache : Cache)
    (base_url : String) (year month : Nat) (file_code nc_var : String)
    (level : Int) (grid_code : String)
    (lat_min lat_max lon_min lon_max : Int) (hour : Nat) :
    resIsNoData (open_or_download_era5_pl_monthly net cache base_url year month
        file_code nc_var level grid_code lat_min lat_max lon_min lon_max
        hour).res = false ∧
    (∀ y m, 28 ≤ monthDays y m) := by
  refine ⟨?_, fun y m => monthDays_ge_28 y m⟩
  unfold open_or_download_era5_pl_monthly
  cases hmr : monthrange year month with
  | error e =>
    have he := monthrange_error_shape year month e hmr
    subst he
    simp [resIsNoData, Err.isNoData]
  | ok last_day =>
    have hld := monthrange_ok_shape year month last_day hmr
    have h28 : 28 ≤ last_day := hld ▸ monthDays_ge_28 year month
    rcases hloop : monthly_loop net base_url year month file_code nc_var level
        grid_code lat_min lat_max lon_min lon_max hour
        (List.range' 1 last_day) cache 0 [] with ⟨res0, c0, r0⟩
    cases res0 with
    | error e =>
      have hsh := (monthly_loop_spec net base_url year month file_code nc_var
        level grid_code lat_min lat_max lon_min lon_max hour
        (List.range' 1 last_day) cache 0 []).1 e c0 r0 hloop
      simp [hloop, resIsNoData, hsh]
    | ok l =>
      have hlen := (monthly_loop_spec net base_url year month file_code nc_var
        level grid_code lat_min lat_max lon_min lon_max hour
        (List.range' 1 last_day) cache 0 []).2 l c0 r0 hloop
      have hne : l.isEmpty = false := by
        cases l with
        | nil =>
          simp [List.length_range'] at hlen
          omega
        | cons a as => rfl
      simp [hloop, hne, resIsNoData]

/-- Claim C2 amended: when the first daily fetch of the month fails
(as happens when every daily fetch fails), the monthly aggregator
propagates that day's open error unchanged — it does not raise the
no-data `ValueError` and performs no concatenation. -/
theorem c2_first_failure_propagates (net : Net) (cache : Cache)
    (base_url : String) (year month : Nat) (file_code nc_var : String)
    (level : Int) (grid_code : String)
    (lat_min lat_max lon_min lon_max : Int) (hour : Nat)
    (hm1 : 1 ≤ month) (hm2 : month ≤ 12)
    (hmiss : cache.lookup (lastSegment (era5_pl_url base_url year month 1
      file_code grid_code)) = none)
    (hfail : net.grids (era5_pl_url base_url year month 1 file_code
      grid_code) = none) :
    open_or_download_era5_pl_monthly net cache base_url year month file_code
        nc_var level grid_code lat_min lat_max lon_min lon_max hour =
      ⟨.error (.openError (era5_pl_url base_url year month 1 file_code
        grid_code)), cache, 1⟩ := by
  have hmr : monthrange year month = .ok (monthDays year month) := by
    simp [monthrange, hm1, hm2]
  obtain ⟨k, hk⟩ : ∃ k, monthDays year month = k + 1 :=
    ⟨monthDays year month - 1, by have := monthDays_ge_28 year month; omega⟩
  have hfetch : open_or_download_era5 net cache (era5_pl_url base_url year
      month 1 file_code grid_code) lat_min lat_max lon_min lon_max hour =
      ⟨.error (.openError (era5_pl_url base_url year month 1 file_code
        grid_code)), cache, 1⟩ := by
    simp [open_or_download_era5, hmiss, hfail]
  unfold open_or_download_era5_pl_monthly
  rw [hmr, hk]
  simp only [List.range'_succ, monthly_loop, hfetch]

/-- Claim C2 counterexample: with every remote open failing, the
January 2024 aggregation yields the day-1 open error, which is not the
no-data `ValueError` the claim predicts. -/
theorem c2_counterexample :
    (open_or_download_era5_pl_monthly noNet [] "B" 2024 1 "fc" "V" 500 "gc"
      10 20 30 40 18).res =
      .error (.openError "B/202401/e5.oper.an.pl.fc.gc.2024010100_2024010123.nc") ∧
    Err.isNoData
      (.openError "B/202401/e5.oper.an.pl.fc.gc.2024010100_2024010123.nc") =
      false :=
  ⟨by decide, by decide⟩

/-- Witness for C1: one concrete run per entry point, each hypothesis
discharged by evaluation. -/
theorem c1_cache_idempotent_witness :
    ((open_or_download c1net [] "https://h/a.csv" none).reqs ≤ 1 ∧
     open_or_download c1net
        (open_or_download c1net [] "https://h/a.csv" none).cache
        "https://h/a.csv" none =
       ⟨.ok [["x", "y"], ["1", "2"]],
        (open_or_download c1net [] "https://h/a.csv" none).cache, 0⟩) ∧
    ((open_or_download_gz c9gunzip c9net [] "https://h/t.csv.gz" none).reqs ≤ 1 ∧
     open_or_download_gz c9gunzip c9net
        (open_or_download_gz c9gunzip c9net [] "https://h/t.csv.gz" none).cache
        "https://h/t.csv.gz" none =
       ⟨.ok [["x", "y"], ["1", "2"]],
        (open_or_download_gz c9gunzip c9net [] "https://h/t.csv.gz" none).cache,
        0⟩) ∧
    ((open_or_download_era5 c1net [] "https://h/d.nc" 0 90 0 360 18).reqs ≤ 1 ∧
     open_or_download_era5 c1net
        (open_or_download_era5 c1net [] "https://h/d.nc" 0 90 0 360 18).cache
        "https://h/d.nc" 0 90 0 360 18 =
       ⟨.ok c4ds,
        (open_or_download_era5 c1net [] "https://h/d.nc" 0 90 0 360 18).cache,
        0⟩) :=
  ⟨c1_cache_idempotent.1 c1net [] "https://h/a.csv" none
      [["x", "y"], ["1", "2"]] (by decide),
   c1_cache_idempotent.2.1 c9gunzip c9net [] "https://h/t.csv.gz" none
      [["x", "y"], ["1", "2"]] (by decide),
   c1_cache_idempotent.2.2 c1net [] "https://h/d.nc" 0 90 0 360 18 c4ds
      (by decide)⟩

/-- Witness for C9: concrete miss-then-decompress and hit-no-decompress
runs. -/
theorem c9_decompress_on_miss_only_witness :
    (Cache.lookup []
        ((none : Option String).getD (gzDefaultName "https://h/t.csv.gz")) =
        none ∧
      c9net.http "https://h/t.csv.gz" = some "GZPAYLOAD".data ∧
      c9gunzip "GZPAYLOAD".data = some "x,y\n1,2".data) ∧
    open_or_download_gz c9gunzip c9net [] "https://h/t.csv.gz" none =
      ⟨read_csv "x,y\n1,2".data,
       Cache.insert []
         ((none : Option String).getD (gzDefaultName "https://h/t.csv.gz"))
         (.bytes "x,y\n1,2".data), 1⟩ ∧
    open_or_download_gz c9gunzip c9net
        [("t.csv", .bytes "x,y\n1,2".data)] "https://h/t.csv.gz" none =
      ⟨read_csv "x,y\n1,2".data, [("t.csv", .bytes "x,y\n1,2".data)], 0⟩ := by
  have h1 := c9_decompress_on_miss_only.1 c9gunzip c9net []
    "https://h/t.csv.gz" none "GZPAYLOAD".data "x,y\n1,2".data
    (by decide) (by decide) (by decide)
  have h2 := (c9_decompress_on_miss_only.2 c9gunzip c9gunzip c9net
    [("t.csv", Entry.bytes "x,y\n1,2".data)] "https://h/t.csv.gz" none
    "x,y\n1,2".data (by decide)).1
  exact ⟨⟨by decide, by decide, by decide⟩, h1, h2⟩

/-- Witness for C7: the subset of a concrete sorted dataset is exactly
the in-bounds filter. -/
theorem c7_miss_subset_exact_witness :
    (Cache.lookup [] (lastSegment "https://h/sub.nc") = none ∧
      c7net.grids "https://h/sub.nc" = some c7ds ∧
      c7ds.lats.Pairwise (· ≥ ·) ∧ c7ds.lons.Pairwise (· ≤ ·)) ∧
    (subset_era5 c7ds 37 39 255 256 18).lats =
      c7ds.lats.filter (fun v => decide ((37 : Int) ≤ v) && decide (v ≤ 39)) ∧
    (subset_era5 c7ds 37 39 255 256 18).times =
      c7ds.times.filter (fun t => decide (t % 24 = 18)) := by
  have h := c7_miss_subset_exact c7net [] "https://h/sub.nc" c7ds 37 39 255 256
    18 (by decide) (by decide) (by decide) (by decide)
  exact ⟨⟨by decide, by decide, by decide, by decide⟩, h.2.1, h.2.2.2⟩

/-- Witness for the amended C4: zero-element latitude selection is
returned and cached without an error. -/
theorem c4_empty_subset_returned_and_cached_witness :
    (Cache.lookup [] (lastSegment "https://h/empty.nc") = none ∧
      c4net.grids "https://h/empty.nc" = some c4ds ∧
      (subset_era5 c4ds 10 12 255 255 18).lats = []) ∧
    open_or_download_era5 c4net [] "https://h/empty.nc" 10 12 255 255 18 =
      ⟨.ok (subset_era5 c4ds 10 12 255 255 18),
       Cache.insert [] (lastSegment "https://h/empty.nc")
         (.nc (subset_era5 c4ds 10 12 255 255 18)), 1⟩ := by
  have h := c4_empty_subset_returned_and_cached c4net [] "https://h/empty.nc"
    c4ds 10 12 255 255 18 (by decide) (by decide) (Or.inl (by decide))
  exact ⟨⟨by decide, by decide, by decide⟩, h⟩

/-- Witness for the amended C2: with every remote open failing, the
January 2024 aggregation propagates day 1's open error. -/
theorem c2_first_failure_propagates_witness :
    ((1 : Nat) ≤ 1 ∧ (1 : Nat) ≤ 12 ∧
      Cache.lookup [] (lastSegment (era5_pl_url "B" 2024 1 1 "fc" "gc")) =
        none ∧
      noNet.grids (era5_pl_url "B" 2024 1 1 "fc" "gc") = none) ∧
    open_or_download_era5_pl_monthly noNet [] "B" 2024 1 "fc" "V" 500 "gc"
        10 20 30 40 18 =
      ⟨.error (.openError (era5_pl_url "B" 2024 1 1 "fc" "gc")), [], 1⟩ := by
  have h := c2_first_failure_propagates noNet [] "B" 2024 1 "fc" "V" 500 "gc"
    10 20 30 40 18 (by decide) (by decide) (by decide) (by decide)
  exact ⟨⟨by decide, by decide, by decide, by decide⟩, h⟩
